import Mathlib

/-!
Shallow embedding of the gitlab-mr-mcp server (src/index.js, both the plain-JS
variant and the TypeScript variant contained in that file, with types.ts).

The embedding models:
* the MCP response shape (`Content`, `Response`),
* JS error values and `formatErrorResponse`,
* raw provider entities (projects, merge requests, discussions/notes, diffs,
  issues) with an `extra` field standing for the provider-defined fields the
  handlers never read (raw payloads are dynamic JS objects),
* JSON serialization in the style of `JSON.stringify(x, null, 2)`,
* the provider boundary as an environment returning `Except` results plus an
  explicit trace of attempted provider calls,
* every tool handler of both variants and the JS `CallToolRequestSchema`
  dispatcher.
-/

namespace GitlabMrMcp

/-- A JSON value, the dynamic data the JS code manipulates and serializes. -/
inductive Json where
  | null : Json
  | bool : Bool → Json
  | num : Int → Json
  | str : String → Json
  | arr : List Json → Json
  | obj : List (String × Json) → Json
deriving Repr

/-- Minimal JSON string escaping as performed by `JSON.stringify`. -/
def escapeJsonString (s : String) : String :=
  s.foldl
    (fun acc c =>
      acc ++ (if c = '"' then "\\\""
        else if c = '\\' then "\\\\"
        else if c = '\n' then "\\n"
        else String.singleton c)) ""

/-- Returns `n` spaces, the indentation unit used by `JSON.stringify(x, null, 2)`. -/
def spacesN : Nat → String
  | 0 => ""
  | n + 1 => " " ++ spacesN n

/-- Models `JSON.stringify(x, null, 2)` at indentation level `ind`: empty arrays and
objects render as `[]` and `\x7b\x7d`, non-empty ones spread their items over
lines joined by `",\n"`, each prefixed with two-space-deeper indentation. -/
def jsonStringify (ind : Nat) : Json → String
  | .null => "null"
  | .bool b => if b then "true" else "false"
  | .num n => toString n
  | .str s => "\"" ++ escapeJsonString s ++ "\""
  | .arr l =>
      if l.isEmpty then "[]"
      else
        "[\n"
          ++ String.intercalate ",\n"
              (l.attach.map (fun a =>
                spacesN (ind + 2) ++ jsonStringify (ind + 2) a.1))
          ++ "\n" ++ spacesN ind ++ "]"
  | .obj l =>
      if l.isEmpty then "\x7b\x7d"
      else
        "\x7b\n"
          ++ String.intercalate ",\n"
              (l.attach.map (fun g =>
                spacesN (ind + 2) ++ "\"" ++ escapeJsonString g.1.1 ++ "\": "
                  ++ jsonStringify (ind + 2) g.1.2))
          ++ "\n" ++ spacesN ind ++ "\x7d"
  termination_by j => sizeOf j
  decreasing_by
    · have h := List.sizeOf_lt_of_mem a.2
      simp only [Json.arr.sizeOf_spec]
      omega
    · have h := List.sizeOf_lt_of_mem g.2
      have h2 : sizeOf g.1.2 < sizeOf g.1 := by
        obtain ⟨⟨k, v⟩, hm⟩ := g
        simp only [Prod.mk.sizeOf_spec]
        omega
      simp only [Json.obj.sizeOf_spec]
      omega

/-- An optional string serialized the way GitLab payload fields are: `null`
when absent. -/
def optStr : Option String → Json
  | none => .null
  | some s => .str s

/-- One content item of an MCP response: `\x7btype: "text", text: ...\x7d`. -/
structure Content where
  type : String
  text : String
deriving DecidableEq, Repr

/-- The MCP response shape `\x7bcontent: [...], isError?: bool\x7d` returned by every
handler and by `formatErrorResponse`. -/
structure Response where
  content : List Content
  isError : Option Bool := none
deriving DecidableEq, Repr

/-- The nested `cause` object a JS `Error` may carry (GitLab client errors
carry `cause.description`). -/
structure ErrCause where
  description : Option String
deriving DecidableEq, Repr

/-- A JS `Error` value as read by `formatErrorResponse`: a `message` and an
optional `cause`. -/
structure JsError where
  message : String
  cause : Option ErrCause
deriving DecidableEq, Repr

/-- JS `a || b` on an optional string: the fallback is used when the string is
absent (`undefined`) or empty (falsy). -/
def jsOrElseStr (s : Option String) (dflt : String) : String :=
  match s with
  | none => dflt
  | some v => if v = "" then dflt else v

/-- Embeds `formatErrorResponse` (src/index.js lines 28-31 and 555-558): formats any
error as a single text content item with `isError: true`; the detail is
`error.cause?.description || "No additional details"`. -/
def formatErrorResponse (error : JsError) : Response :=
  { content := [{ type := "text",
                  text := "Error: " ++ error.message ++ " - "
                    ++ jsOrElseStr (error.cause.bind ErrCause.description)
                        "No additional details" }],
    isError := some true }

/-! ### Raw provider entities

Raw provider payloads are dynamic JS objects; each structure below carries the
fields the handlers read plus an `extra` association list standing for the
provider-defined fields the handlers never touch. -/

/-- A raw project as returned by `api.Projects.all`. -/
structure Project where
  id : Int
  description : Option String
  name : String
  path : String
  path_with_namespace : String
  web_url : String
  default_branch : String
  extra : List (String × String) := []
deriving DecidableEq, Repr

/-- The filtered project projection built by `getProjects` (src/index.js
lines 355-363): exactly these seven fields. -/
structure FilteredProject where
  id : Int
  description : Option String
  name : String
  path : String
  path_with_namespace : String
  web_url : String
  default_branch : String
deriving DecidableEq, Repr

/-- A raw merge request as returned by `api.MergeRequests.all`. -/
structure MergeRequest where
  iid : Int
  project_id : Int
  title : String
  description : Option String
  state : String
  web_url : String
  extra : List (String × String) := []
deriving DecidableEq, Repr

/-- The filtered merge-request projection built by `listOpenMergeRequests`
(src/index.js lines 376-383): exactly these six fields. -/
structure FilteredMergeRequest where
  iid : Int
  project_id : Int
  title : String
  description : Option String
  state : String
  web_url : String
deriving DecidableEq, Repr

/-- The `diff_refs` structure of a merge request, copied opaquely. -/
structure DiffRefs where
  base_sha : String
  start_sha : String
  head_sha : String
deriving DecidableEq, Repr

/-- A raw merge request as returned by `api.MergeRequests.show` or
`api.MergeRequests.edit`. -/
structure MergeRequestDetails where
  title : String
  description : Option String
  state : String
  web_url : String
  target_branch : String
  source_branch : String
  merge_status : String
  detailed_merge_status : String
  diff_refs : DiffRefs
  extra : List (String × String) := []
deriving DecidableEq, Repr

/-- The filtered merge-request-details projection built by
`getMergeRequestDetails` (src/index.js lines 391-401). -/
structure FilteredMergeRequestDetails where
  title : String
  description : Option String
  state : String
  web_url : String
  target_branch : String
  source_branch : String
  merge_status : String
  detailed_merge_status : String
  diff_refs : DiffRefs
deriving DecidableEq, Repr

/-- The author object nested in a note. -/
structure Author where
  name : String
deriving DecidableEq, Repr

/-- A raw note inside a merge-request discussion. `resolved` and `type` may be
absent in the dynamic payload (system notes), hence `Option`; the diff
`position` is copied opaquely as an association list. -/
structure Note where
  id : Int
  noteable_id : Int
  body : String
  author : Author
  resolved : Option Bool
  type : Option String
  position : Option (List (String × String))
  extra : List (String × String) := []
deriving DecidableEq, Repr

/-- A raw discussion as returned by `api.MergeRequestDiscussions.all`. -/
structure Discussion where
  id : String
  notes : List Note
  extra : List (String × String) := []
deriving DecidableEq, Repr

/-- The filtered discussion-note projection of `getMergeRequestComments`
(src/index.js lines 417-422). -/
structure FilteredDiscussionNote where
  id : Int
  noteable_id : Int
  body : String
  author_name : String
deriving DecidableEq, Repr

/-- The filtered diff-note projection of `getMergeRequestComments`
(src/index.js lines 423-429): the discussion-note fields plus the position. -/
structure FilteredDiffNote where
  id : Int
  noteable_id : Int
  body : String
  author_name : String
  position : Option (List (String × String))
deriving DecidableEq, Repr

/-- A raw file diff as returned by `api.MergeRequests.allDiffs`. -/
structure Diff where
  old_path : String
  new_path : String
  diff : String
  extra : List (String × String) := []
deriving DecidableEq, Repr

/-- A raw issue as returned by `api.Issues.show`. -/
structure Issue where
  title : String
  description : Option String
  extra : List (String × String) := []
deriving DecidableEq, Repr

/-- The filtered issue projection of `getIssueDetails` (src/index.js
lines 480-483): title and description only. -/
structure FilteredIssue where
  title : String
  description : Option String
deriving DecidableEq, Repr

/-! ### Projections (the Response Shaper maps inside each handler) -/

/-- The per-project arrow of `projects.map(...)` in `getProjects`. -/
def filterProject (project : Project) : FilteredProject :=
  { id := project.id,
    description := project.description,
    name := project.name,
    path := project.path,
    path_with_namespace := project.path_with_namespace,
    web_url := project.web_url,
    default_branch := project.default_branch }

/-- The per-merge-request arrow of `mergeRequests.map(...)` in
`listOpenMergeRequests`. -/
def filterMergeRequest (mr : MergeRequest) : FilteredMergeRequest :=
  { iid := mr.iid,
    project_id := mr.project_id,
    title := mr.title,
    description := mr.description,
    state := mr.state,
    web_url := mr.web_url }

/-- The filtered object built by `getMergeRequestDetails` in non-verbose
mode. -/
def filterMergeRequestDetails (mr : MergeRequestDetails) : FilteredMergeRequestDetails :=
  { title := mr.title,
    description := mr.description,
    state := mr.state,
    web_url := mr.web_url,
    target_branch := mr.target_branch,
    source_branch := mr.source_branch,
    merge_status := mr.merge_status,
    detailed_merge_status := mr.detailed_merge_status,
    diff_refs := mr.diff_refs }

/-- The per-note arrow of the `disscussionNotes` map in
`getMergeRequestComments`. -/
def filterDiscussionNote (note : Note) : FilteredDiscussionNote :=
  { id := note.id,
    noteable_id := note.noteable_id,
    body := note.body,
    author_name := note.author.name }

/-- The per-note arrow of the `diffNotes` map in `getMergeRequestComments`. -/
def filterDiffNote (note : Note) : FilteredDiffNote :=
  { id := note.id,
    noteable_id := note.noteable_id,
    body := note.body,
    author_name := note.author.name,
    position := note.position }

/-- The filtered object built by `getIssueDetails` in non-verbose mode. -/
def filterIssue (issue : Issue) : FilteredIssue :=
  { title := issue.title,
    description := issue.description }

/-- Embeds `discussions.flatMap(note => note.notes).filter(note => note.resolved === false)`
(src/index.js line 416). -/
def unresolvedNotesOf (discussions : List Discussion) : List Note :=
  (discussions.flatMap Discussion.notes).filter (fun note => note.resolved == some false)

/-- The `disscussionNotes` list of `getMergeRequestComments` (src/index.js
lines 417-422): unresolved notes of type `"DiscussionNote"`, projected. -/
def disscussionNotesOf (discussions : List Discussion) : List FilteredDiscussionNote :=
  ((unresolvedNotesOf discussions).filter
    (fun note => note.type == some "DiscussionNote")).map filterDiscussionNote

/-- The `diffNotes` list of `getMergeRequestComments` (src/index.js
lines 423-429): unresolved notes of type `"DiffNote"`, projected. -/
def diffNotesOf (discussions : List Discussion) : List FilteredDiffNote :=
  ((unresolvedNotesOf discussions).filter
    (fun note => note.type == some "DiffNote")).map filterDiffNote

/-! ### Serialization of entities to `Json` (what `JSON.stringify` receives) -/

/-- Provider-defined extra fields rendered as JSON string fields. -/
def strPairsJson (l : List (String × String)) : List (String × Json) :=
  l.map (fun p => (p.1, Json.str p.2))

def Project.toJson (p : Project) : Json :=
  .obj ([("id", .num p.id), ("description", optStr p.description),
    ("name", .str p.name), ("path", .str p.path),
    ("path_with_namespace", .str p.path_with_namespace),
    ("web_url", .str p.web_url), ("default_branch", .str p.default_branch)]
    ++ strPairsJson p.extra)

def FilteredProject.toJson (p : FilteredProject) : Json :=
  .obj [("id", .num p.id), ("description", optStr p.description),
    ("name", .str p.name), ("path", .str p.path),
    ("path_with_namespace", .str p.path_with_namespace),
    ("web_url", .str p.web_url), ("default_branch", .str p.default_branch)]

def MergeRequest.toJson (mr : MergeRequest) : Json :=
  .obj ([("iid", .num mr.iid), ("project_id", .num mr.project_id),
    ("title", .str mr.title), ("description", optStr mr.description),
    ("state", .str mr.state), ("web_url", .str mr.web_url)]
    ++ strPairsJson mr.extra)

def FilteredMergeRequest.toJson (mr : FilteredMergeRequest) : Json :=
  .obj [("iid", .num mr.iid), ("project_id", .num mr.project_id),
    ("title", .str mr.title), ("description", optStr mr.description),
    ("state", .str mr.state), ("web_url", .str mr.web_url)]

def DiffRefs.toJson (d : DiffRefs) : Json :=
  .obj [("base_sha", .str d.base_sha), ("start_sha", .str d.start_sha),
    ("head_sha", .str d.head_sha)]

def MergeRequestDetails.toJson (mr : MergeRequestDetails) : Json :=
  .obj ([("title", .str mr.title), ("description", optStr mr.description),
    ("state", .str mr.state), ("web_url", .str mr.web_url),
    ("target_branch", .str mr.target_branch),
    ("source_branch", .str mr.source_branch),
    ("merge_status", .str mr.merge_status),
    ("detailed_merge_status", .str mr.detailed_merge_status),
    ("diff_refs", mr.diff_refs.toJson)] ++ strPairsJson mr.extra)

def FilteredMergeRequestDetails.toJson (mr : FilteredMergeRequestDetails) : Json :=
  .obj [("title", .str mr.title), ("description", optStr mr.description),
    ("state", .str mr.state), ("web_url", .str mr.web_url),
    ("target_branch", .str mr.target_branch),
    ("source_branch", .str mr.source_branch),
    ("merge_status", .str mr.merge_status),
    ("detailed_merge_status", .str mr.detailed_merge_status),
    ("diff_refs", mr.diff_refs.toJson)]

def optPosJson : Option (List (String × String)) → Json
  | none => .null
  | some l => .obj (strPairsJson l)

def Note.toJson (note : Note) : Json :=
  .obj ([("id", .num note.id), ("noteable_id", .num note.noteable_id),
    ("body", .str note.body), ("author", .obj [("name", .str note.author.name)]),
    ("resolved", match note.resolved with | none => Json.null | some b => Json.bool b),
    ("type", optStr note.type), ("position", optPosJson note.position)]
    ++ strPairsJson note.extra)

def Discussion.toJson (d : Discussion) : Json :=
  .obj ([("id", .str d.id), ("notes", .arr (d.notes.map Note.toJson))]
    ++ strPairsJson d.extra)

def FilteredDiscussionNote.toJson (n : FilteredDiscussionNote) : Json :=
  .obj [("id", .num n.id), ("noteable_id", .num n.noteable_id),
    ("body", .str n.body), ("author_name", .str n.author_name)]

def FilteredDiffNote.toJson (n : FilteredDiffNote) : Json :=
  .obj [("id", .num n.id), ("noteable_id", .num n.noteable_id),
    ("body", .str n.body), ("author_name", .str n.author_name),
    ("position", optPosJson n.position)]

def Diff.toJson (d : Diff) : Json :=
  .obj ([("old_path", .str d.old_path), ("new_path", .str d.new_path),
    ("diff", .str d.diff)] ++ strPairsJson d.extra)

def Issue.toJson (i : Issue) : Json :=
  .obj ([("title", .str i.title), ("description", optStr i.description)]
    ++ strPairsJson i.extra)

def FilteredIssue.toJson (i : FilteredIssue) : Json :=
  .obj [("title", .str i.title), ("description", optStr i.description)]

/-! ### Invocation arguments and falsiness -/

/-- The argument mapping of a tool invocation (types.ts `ToolHandlerArgs`):
every field optional, absence modelled as `none` (JS `undefined`). -/
structure Args where
  verbose : Option Bool := none
  project_id : Option Int := none
  merge_request_iid : Option Int := none
  issue_iid : Option Int := none
  comment : Option String := none
  base_sha : Option String := none
  start_sha : Option String := none
  head_sha : Option String := none
  file_path : Option String := none
  line_number : Option String := none
  description : Option String := none
  title : Option String := none
deriving DecidableEq, Repr

/-- JS falsiness of an optional number: `undefined` and `0` are falsy
(`!project_id` in the TS handlers). -/
def falsyNum : Option Int → Bool
  | none => true
  | some n => n == 0

/-- JS falsiness of an optional string: `undefined` and `""` are falsy
(`!comment` in the TS handlers). -/
def falsyStr : Option String → Bool
  | none => true
  | some s => s == ""

/-! ### The provider boundary -/

/-- The `position` object passed to `api.MergeRequestDiscussions.create` by
`addMergeRequestDiffComment` (snake_case keys in the JS variant, the same
values under camelCase keys in the TS variant). Fields are optional strings
because the JS variant forwards possibly-undefined arguments. -/
structure Position where
  base_sha : Option String
  start_sha : Option String
  head_sha : Option String
  old_path : Option String
  new_path : Option String
  position_type : String
  new_line : Option String
deriving DecidableEq, Repr

/-- One attempted call against the GitLab client adapter, with the arguments
the handler passed. -/
inductive ProviderCall where
  | projectsAll
  | mergeRequestsAll (projectId : Option Int)
  | mergeRequestsShow (projectId : Option Int) (iid : Option Int)
  | discussionsAll (projectId : Option Int) (iid : Option Int)
  | discussionsCreate (projectId : Option Int) (iid : Option Int)
      (body : Option String) (position : Option Position)
  | mergeRequestsAllDiffs (projectId : Option Int) (iid : Option Int)
  | issuesShow (issueIid : Option Int) (projectId : Option Int)
  | mergeRequestsEdit (projectId : Option Int) (iid : Option Int)
      (description : Option String) (title : Option String)
deriving DecidableEq, Repr

/-- The provider environment for one invocation: what each adapter operation
would return (or the error it would raise). -/
structure Provider where
  projectsAll : Except JsError (List Project)
  mergeRequestsAll : Except JsError (List MergeRequest)
  mergeRequestsShow : Except JsError MergeRequestDetails
  discussionsAll : Except JsError (List Discussion)
  discussionsCreate : Except JsError Discussion
  mergeRequestsAllDiffs : Except JsError (List Diff)
  issuesShow : Except JsError Issue
  mergeRequestsEdit : Except JsError MergeRequestDetails

/-- A handler outcome: the returned response or the raised error, together
with the trace of provider calls the handler attempted. -/
abbrev HandlerResult := Except JsError Response × List ProviderCall

/-- A single-text-item success response around `txt`. -/
def textResponse (txt : String) : Response :=
  { content := [{ type := "text", text := txt }] }

/-! ### JS-variant tool handlers (src/index.js lines 349-502)

None of these perform argument validation: they destructure the arguments and
call the adapter directly, forwarding `undefined` values as-is. -/

/-- Embeds `getProjects` (JS variant, lines 349-371). -/
def getProjectsJS (args : Args) (env : Provider) : HandlerResult :=
  match env.projectsAll with
  | .error e => (.error e, [.projectsAll])
  | .ok projects =>
      let verbose := args.verbose.getD false
      let filteredProjects : List Json :=
        if verbose then projects.map Project.toJson
        else (projects.map filterProject).map FilteredProject.toJson
      let projectsText :=
        if 0 < filteredProjects.length then jsonStringify 0 (.arr filteredProjects)
        else "No projects found."
      (.ok (textResponse projectsText), [.projectsAll])

/-- Embeds `listOpenMergeRequests` (JS variant, lines 373-387). -/
def listOpenMergeRequestsJS (args : Args) (env : Provider) : HandlerResult :=
  let call := ProviderCall.mergeRequestsAll args.project_id
  match env.mergeRequestsAll with
  | .error e => (.error e, [call])
  | .ok mergeRequests =>
      let verbose := args.verbose.getD false
      let filteredMergeRequests : List Json :=
        if verbose then mergeRequests.map MergeRequest.toJson
        else (mergeRequests.map filterMergeRequest).map FilteredMergeRequest.toJson
      (.ok (textResponse (jsonStringify 0 (.arr filteredMergeRequests))), [call])

/-- Embeds `getMergeRequestDetails` (JS variant, lines 389-405). -/
def getMergeRequestDetailsJS (args : Args) (env : Provider) : HandlerResult :=
  let call := ProviderCall.mergeRequestsShow args.project_id args.merge_request_iid
  match env.mergeRequestsShow with
  | .error e => (.error e, [call])
  | .ok mr =>
      let verbose := args.verbose.getD false
      let filteredMr : Json :=
        if verbose then mr.toJson else (filterMergeRequestDetails mr).toJson
      (.ok (textResponse (jsonStringify 0 filteredMr)), [call])

/-- Embeds `getMergeRequestComments` (JS variant, lines 407-436). -/
def getMergeRequestCommentsJS (args : Args) (env : Provider) : HandlerResult :=
  let call := ProviderCall.discussionsAll args.project_id args.merge_request_iid
  match env.discussionsAll with
  | .error e => (.error e, [call])
  | .ok discussions =>
      let verbose := args.verbose.getD false
      if verbose then
        (.ok (textResponse (jsonStringify 0 (.arr (discussions.map Discussion.toJson)))),
          [call])
      else
        (.ok (textResponse (jsonStringify 0 (.obj
          [("disscussionNotes",
              .arr ((disscussionNotesOf discussions).map FilteredDiscussionNote.toJson)),
            ("diffNotes",
              .arr ((diffNotesOf discussions).map FilteredDiffNote.toJson))]))),
          [call])

/-- Embeds `addMergeRequestComment` (JS variant, lines 438-443). -/
def addMergeRequestCommentJS (args : Args) (env : Provider) : HandlerResult :=
  let call := ProviderCall.discussionsCreate args.project_id args.merge_request_iid
    args.comment none
  match env.discussionsCreate with
  | .error e => (.error e, [call])
  | .ok note => (.ok (textResponse (jsonStringify 0 note.toJson)), [call])

/-- Embeds `addMergeRequestDiffComment` (JS variant, lines 445-465): builds the
position object and calls the adapter; no validation at all. -/
def addMergeRequestDiffCommentJS (args : Args) (env : Provider) : HandlerResult :=
  let position : Position :=
    { base_sha := args.base_sha,
      start_sha := args.start_sha,
      head_sha := args.head_sha,
      old_path := args.file_path,
      new_path := args.file_path,
      position_type := "text",
      new_line := args.line_number }
  let call := ProviderCall.discussionsCreate args.project_id args.merge_request_iid
    args.comment (some position)
  match env.discussionsCreate with
  | .error e => (.error e, [call])
  | .ok discussion => (.ok (textResponse (jsonStringify 0 discussion.toJson)), [call])

/-- Embeds `getMergeRequestDiff` (JS variant, lines 467-475). -/
def getMergeRequestDiffJS (args : Args) (env : Provider) : HandlerResult :=
  let call := ProviderCall.mergeRequestsAllDiffs args.project_id args.merge_request_iid
  match env.mergeRequestsAllDiffs with
  | .error e => (.error e, [call])
  | .ok diff =>
      let diffText :=
        if 0 < diff.length then jsonStringify 0 (.arr (diff.map Diff.toJson))
        else "No diff data available for this merge request."
      (.ok (textResponse diffText), [call])

/-- Embeds `getIssueDetails` (JS variant, lines 477-488). -/
def getIssueDetailsJS (args : Args) (env : Provider) : HandlerResult :=
  let call := ProviderCall.issuesShow args.issue_iid args.project_id
  match env.issuesShow with
  | .error e => (.error e, [call])
  | .ok issue =>
      let verbose := args.verbose.getD false
      let filteredIssue : Json :=
        if verbose then issue.toJson else (filterIssue issue).toJson
      (.ok (textResponse (jsonStringify 0 filteredIssue)), [call])

/-- Embeds `setMergeRequestDescription` (JS variant, lines 490-495). -/
def setMergeRequestDescriptionJS (args : Args) (env : Provider) : HandlerResult :=
  let call := ProviderCall.mergeRequestsEdit args.project_id args.merge_request_iid
    args.description none
  match env.mergeRequestsEdit with
  | .error e => (.error e, [call])
  | .ok mr => (.ok (textResponse (jsonStringify 0 mr.toJson)), [call])

/-- Embeds `setMergeRequestTitle` (JS variant, lines 497-502). -/
def setMergeRequestTitleJS (args : Args) (env : Provider) : HandlerResult :=
  let call := ProviderCall.mergeRequestsEdit args.project_id args.merge_request_iid
    none args.title
  match env.mergeRequestsEdit with
  | .error e => (.error e, [call])
  | .ok mr => (.ok (textResponse (jsonStringify 0 mr.toJson)), [call])

/-- The names of the ten registered tools (src/index.js lines 45-275). -/
def toolNames : List String :=
  ["get_projects", "list_open_merge_requests", "get_merge_request_details",
   "get_merge_request_comments", "add_merge_request_comment",
   "add_merge_request_diff_comment", "get_merge_request_diff",
   "get_issue_details", "set_merge_request_description",
   "set_merge_request_title"]

/-- The `switch (name)` of the `CallToolRequestSchema` handler (src/index.js
lines 291-334): routes to the matching handler, throws `Unknown tool: <name>`
on the default branch (inside the `try`, so the dispatcher catches it). -/
def handleToolJS (name : String) (args : Args) (env : Provider) : HandlerResult :=
  if name == "get_projects" then getProjectsJS args env
  else if name == "list_open_merge_requests" then listOpenMergeRequestsJS args env
  else if name == "get_merge_request_details" then getMergeRequestDetailsJS args env
  else if name == "get_merge_request_comments" then getMergeRequestCommentsJS args env
  else if name == "add_merge_request_comment" then addMergeRequestCommentJS args env
  else if name == "add_merge_request_diff_comment" then addMergeRequestDiffCommentJS args env
  else if name == "get_merge_request_diff" then getMergeRequestDiffJS args env
  else if name == "get_issue_details" then getIssueDetailsJS args env
  else if name == "set_merge_request_description" then setMergeRequestDescriptionJS args env
  else if name == "set_merge_request_title" then setMergeRequestTitleJS args env
  else (.error { message := "Unknown tool: " ++ name, cause := none }, [])

/-- The `CallToolRequestSchema` handler (src/index.js lines 284-343): runs the
switch inside `try`, returns the handler result on success and
`formatErrorResponse(error)` on any caught exception. The trace of attempted
provider calls is returned alongside. -/
def dispatchJS (name : String) (args : Args) (env : Provider) :
    Response × List ProviderCall :=
  let hr := handleToolJS name args env
  match hr.1 with
  | .ok result => (result, hr.2)
  | .error e => (formatErrorResponse e, hr.2)

/-! ### TypeScript-variant tool handlers (src/index.js lines 774-986)

These validate required arguments with JS falsiness checks (`!project_id`)
before calling the adapter, throwing a `... are required` error with no
provider call when the check fails. The bodies after validation match the JS
variant (the TS diff-comment position uses camelCase keys for the same
values). -/

/-- Embeds `getProjects` (TS variant, lines 774-799): no required arguments. -/
def getProjectsTS (args : Args) (env : Provider) : HandlerResult :=
  getProjectsJS args env

/-- Embeds `listOpenMergeRequests` (TS variant, lines 801-821). -/
def listOpenMergeRequestsTS (args : Args) (env : Provider) : HandlerResult :=
  if falsyNum args.project_id then
    (.error { message := "project_id is required", cause := none }, [])
  else listOpenMergeRequestsJS args env

/-- Embeds `getMergeRequestDetails` (TS variant, lines 823-845). -/
def getMergeRequestDetailsTS (args : Args) (env : Provider) : HandlerResult :=
  if falsyNum args.project_id || falsyNum args.merge_request_iid then
    (.error { message := "project_id and merge_request_iid are required", cause := none }, [])
  else getMergeRequestDetailsJS args env

/-- Embeds `getMergeRequestComments` (TS variant, lines 847-884). -/
def getMergeRequestCommentsTS (args : Args) (env : Provider) : HandlerResult :=
  if falsyNum args.project_id || falsyNum args.merge_request_iid then
    (.error { message := "project_id and merge_request_iid are required", cause := none }, [])
  else getMergeRequestCommentsJS args env

/-- Embeds `addMergeRequestComment` (TS variant, lines 886-895). -/
def addMergeRequestCommentTS (args : Args) (env : Provider) : HandlerResult :=
  if falsyNum args.project_id || falsyNum args.merge_request_iid
      || falsyStr args.comment then
    (.error { message := "project_id, merge_request_iid, and comment are required",
              cause := none }, [])
  else addMergeRequestCommentJS args env

/-- Embeds `addMergeRequestDiffComment` (TS variant, lines 897-931): all eight
arguments checked for falsiness before the create call. -/
def addMergeRequestDiffCommentTS (args : Args) (env : Provider) : HandlerResult :=
  if falsyNum args.project_id || falsyNum args.merge_request_iid
      || falsyStr args.comment || falsyStr args.base_sha || falsyStr args.start_sha
      || falsyStr args.head_sha || falsyStr args.file_path
      || falsyStr args.line_number then
    (.error { message := "project_id, merge_request_iid, comment, base_sha, start_sha, head_sha, file_path, and line_number are required",
              cause := none }, [])
  else addMergeRequestDiffCommentJS args env

/-- Embeds `getMergeRequestDiff` (TS variant, lines 933-946). -/
def getMergeRequestDiffTS (args : Args) (env : Provider) : HandlerResult :=
  if falsyNum args.project_id || falsyNum args.merge_request_iid then
    (.error { message := "project_id and merge_request_iid are required", cause := none }, [])
  else getMergeRequestDiffJS args env

/-- Embeds `getIssueDetails` (TS variant, lines 948-964). -/
def getIssueDetailsTS (args : Args) (env : Provider) : HandlerResult :=
  if falsyNum args.project_id || falsyNum args.issue_iid then
    (.error { message := "project_id and issue_iid are required", cause := none }, [])
  else getIssueDetailsJS args env

/-- Embeds `setMergeRequestDescription` (TS variant, lines 966-975). -/
def setMergeRequestDescriptionTS (args : Args) (env : Provider) : HandlerResult :=
  if falsyNum args.project_id || falsyNum args.merge_request_iid
      || falsyStr args.description then
    (.error { message := "project_id, merge_request_iid, and description are required",
              cause := none }, [])
  else setMergeRequestDescriptionJS args env

/-- Embeds `setMergeRequestTitle` (TS variant, lines 977-986). -/
def setMergeRequestTitleTS (args : Args) (env : Provider) : HandlerResult :=
  if falsyNum args.project_id || falsyNum args.merge_request_iid
      || falsyStr args.title then
    (.error { message := "project_id, merge_request_iid, and title are required",
              cause := none }, [])
  else setMergeRequestTitleJS args env

/-! ### Concrete fixtures used by witnesses and counterexamples -/

/-- A concrete raw merge-request-details payload. -/
def mrDetails0 : MergeRequestDetails :=
  { title := "t", description := some "d", state := "opened", web_url := "u",
    target_branch := "main", source_branch := "feat",
    merge_status := "can_be_merged", detailed_merge_status := "mergeable",
    diff_refs := { base_sha := "b", start_sha := "s", head_sha := "h" } }

/-- A concrete created discussion. -/
def discussion0 : Discussion := { id := "disc0", notes := [] }

/-- A concrete raw issue payload. -/
def issue0 : Issue := { title := "i", description := none }

/-- A provider environment where every adapter call succeeds and every list is
empty. -/
def envOk : Provider :=
  { projectsAll := .ok [],
    mergeRequestsAll := .ok [],
    mergeRequestsShow := .ok mrDetails0,
    discussionsAll := .ok [],
    discussionsCreate := .ok discussion0,
    mergeRequestsAllDiffs := .ok [],
    issuesShow := .ok issue0,
    mergeRequestsEdit := .ok mrDetails0 }

/-- Detail extraction as the claim words it: `e.cause.description` when that
nested field is present and non-empty, the literal otherwise. -/
def claimErrorDetail (e : JsError) : String :=
  match e.cause with
  | some c =>
      match c.description with
      | some d => if d ≠ "" then d else "No additional details"
      | none => "No additional details"
  | none => "No additional details"

/-- An unresolved plain discussion note. -/
def note1 : Note :=
  { id := 1, noteable_id := 10, body := "looks wrong", author := { name := "alice" },
    resolved := some false, type := some "DiscussionNote", position := none }

/-- An unresolved diff note with a position payload. -/
def note2 : Note :=
  { id := 2, noteable_id := 10, body := "off by one", author := { name := "bob" },
    resolved := some false, type := some "DiffNote",
    position := some [("new_line", "3")] }

/-- A resolved note. -/
def note3 : Note :=
  { id := 3, noteable_id := 10, body := "done", author := { name := "carl" },
    resolved := some true, type := some "DiscussionNote", position := none }

/-- Two discussions holding the three notes above. -/
def discussions0 : List Discussion :=
  [{ id := "d1", notes := [note1, note2] }, { id := "d2", notes := [note3] }]

/-- The per-tool `try/catch` wrapper of the TS variant's `registerTool`
callbacks (src/index.js lines 579-585 and analogues): returns the handler
response, or `formatErrorResponse` of the raised error. -/
def runToolTS (handler : Args → Provider → HandlerResult) (args : Args)
    (env : Provider) : Response × List ProviderCall :=
  let hr := handler args env
  match hr.1 with
  | .ok r => (r, hr.2)
  | .error e => (formatErrorResponse e, hr.2)

/-- Arguments for the diff-comment operation with `comment` absent and the
other seven supplied. -/
def argsDiffNoComment : Args :=
  { project_id := some 1, merge_request_iid := some 2, comment := none,
    base_sha := some "a1", start_sha := some "b2", head_sha := some "c3",
    file_path := some "src/main.ts", line_number := some "42" }

/-- Arguments for the diff-comment operation, complete, using the spec's
example values. -/
def argsDiffFull : Args :=
  { project_id := some 1, merge_request_iid := some 2, comment := some "note",
    base_sha := some "a1", start_sha := some "b2", head_sha := some "c3",
    file_path := some "src/main.ts", line_number := some "42" }

/-! ### Shape lemmas: every handler success is a single text content item -/

/-- Successful handler results are single-text responses (shared helper). -/
def okShape (hr : HandlerResult) : Prop :=
  ∀ r : Response, hr.1 = Except.ok r → ∃ t, r = textResponse t

lemma getProjectsJS_okShape (args : Args) (env : Provider) :
    okShape (getProjectsJS args env) := by
  intro r h
  unfold getProjectsJS at h
  rcases henv : env.projectsAll with e | ps <;> simp [henv, textResponse] at h
  exact ⟨_, h.symm⟩

lemma listOpenMergeRequestsJS_okShape (args : Args) (env : Provider) :
    okShape (listOpenMergeRequestsJS args env) := by
  intro r h
  unfold listOpenMergeRequestsJS at h
  rcases henv : env.mergeRequestsAll with e | ms <;> simp [henv, textResponse] at h
  exact ⟨_, h.symm⟩

lemma getMergeRequestDetailsJS_okShape (args : Args) (env : Provider) :
    okShape (getMergeRequestDetailsJS args env) := by
  intro r h
  unfold getMergeRequestDetailsJS at h
  rcases henv : env.mergeRequestsShow with e | mr <;> simp [henv, textResponse] at h
  exact ⟨_, h.symm⟩

lemma getMergeRequestCommentsJS_okShape (args : Args) (env : Provider) :
    okShape (getMergeRequestCommentsJS args env) := by
  intro r h
  unfold getMergeRequestCommentsJS at h
  rcases henv : env.discussionsAll with e | ds <;> simp [henv, textResponse] at h
  split at h <;> simp at h <;> exact ⟨_, h.symm⟩

lemma addMergeRequestCommentJS_okShape (args : Args) (env : Provider) :
    okShape (addMergeRequestCommentJS args env) := by
  intro r h
  unfold addMergeRequestCommentJS at h
  rcases henv : env.discussionsCreate with e | d <;> simp [henv, textResponse] at h
  exact ⟨_, h.symm⟩

lemma addMergeRequestDiffCommentJS_okShape (args : Args) (env : Provider) :
    okShape (addMergeRequestDiffCommentJS args env) := by
  intro r h
  unfold addMergeRequestDiffCommentJS at h
  rcases henv : env.discussionsCreate with e | d <;> simp [henv, textResponse] at h
  exact ⟨_, h.symm⟩

lemma getMergeRequestDiffJS_okShape (args : Args) (env : Provider) :
    okShape (getMergeRequestDiffJS args env) := by
  intro r h
  unfold getMergeRequestDiffJS at h
  rcases henv : env.mergeRequestsAllDiffs with e | ds <;> simp [henv, textResponse] at h
  exact ⟨_, h.symm⟩

lemma getIssueDetailsJS_okShape (args : Args) (env : Provider) :
    okShape (getIssueDetailsJS args env) := by
  intro r h
  unfold getIssueDetailsJS at h
  rcases henv : env.issuesShow with e | i <;> simp [henv, textResponse] at h
  exact ⟨_, h.symm⟩

lemma setMergeRequestDescriptionJS_okShape (args : Args) (env : Provider) :
    okShape (setMergeRequestDescriptionJS args env) := by
  intro r h
  unfold setMergeRequestDescriptionJS at h
  rcases henv : env.mergeRequestsEdit with e | mr <;> simp [henv, textResponse] at h
  exact ⟨_, h.symm⟩

lemma setMergeRequestTitleJS_okShape (args : Args) (env : Provider) :
    okShape (setMergeRequestTitleJS args env) := by
  intro r h
  unfold setMergeRequestTitleJS at h
  rcases henv : env.mergeRequestsEdit with e | mr <;> simp [henv, textResponse] at h
  exact ⟨_, h.symm⟩

set_option maxHeartbeats 1000000 in
lemma handleToolJS_okShape (name : String) (args : Args) (env : Provider) :
    okShape (handleToolJS name args env) := by
  intro r h
  unfold handleToolJS at h
  split_ifs at h
  · exact getProjectsJS_okShape args env r h
  · exact listOpenMergeRequestsJS_okShape args env r h
  · exact getMergeRequestDetailsJS_okShape args env r h
  · exact getMergeRequestCommentsJS_okShape args env r h
  · exact addMergeRequestCommentJS_okShape args env r h
  · exact addMergeRequestDiffCommentJS_okShape args env r h
  · exact getMergeRequestDiffJS_okShape args env r h
  · exact getIssueDetailsJS_okShape args env r h
  · exact setMergeRequestDescriptionJS_okShape args env r h
  · exact setMergeRequestTitleJS_okShape args env r h

/-- Unfolding of the dispatcher's response component. -/
lemma dispatchJS_fst (name : String) (args : Args) (env : Provider) :
    (dispatchJS name args env).1 =
      (match (handleToolJS name args env).1 with
        | .ok r => r
        | .error e => formatErrorResponse e) := by
  unfold dispatchJS
  rcases hres : (handleToolJS name args env).1 with e | r <;> simp [hres]

/-! ### Claim theorems -/

/-- C2: for every operation name, argument mapping and provider environment,
the JS dispatcher returns a structured result with a single text content item
and `isError` either unset or `true`; any error raised by the invoked handler
(validation, unknown tool, provider failure) is caught at the dispatcher
boundary and translated by `formatErrorResponse`, and a successful handler
response is returned unchanged — the dispatcher itself is total, so no
exception propagates to its caller. -/
theorem dispatchJS_uniform_result (name : String) (args : Args) (env : Provider) :
    (∃ t, (dispatchJS name args env).1.content = [{ type := "text", text := t }]) ∧
    ((dispatchJS name args env).1.isError = none ∨
      (dispatchJS name args env).1.isError = some true) ∧
    (∀ e : JsError, (handleToolJS name args env).1 = Except.error e →
      (dispatchJS name args env).1 = formatErrorResponse e) ∧
    (∀ resp : Response, (handleToolJS name args env).1 = Except.ok resp →
      (dispatchJS name args env).1 = resp) := by
  have hd := dispatchJS_fst name args env
  rcases hres : (handleToolJS name args env).1 with e | resp
  · rw [hres] at hd
    refine ⟨⟨_, by rw [hd]; rfl⟩, Or.inr (by rw [hd]; rfl), ?_, ?_⟩
    · intro e2 he2
      cases he2
      exact hd
    · intro r2 hr2
      exact (Except.noConfusion hr2)
  · rw [hres] at hd
    obtain ⟨t, ht⟩ := handleToolJS_okShape name args env resp hres
    refine ⟨⟨t, by rw [hd, ht]; rfl⟩, Or.inl (by rw [hd, ht]; rfl), ?_, ?_⟩
    · intro e2 he2
      exact (Except.noConfusion he2)
    · intro r2 hr2
      cases hr2
      exact hd

/-- Witness for C2: at the concrete invocation `get_projects` with no
arguments against `envOk`, the handler succeeds and the dispatcher passes its
response through unchanged. -/
theorem dispatchJS_uniform_result_witness :
    (dispatchJS "get_projects" {} envOk).1 = textResponse "No projects found." :=
  (dispatchJS_uniform_result "get_projects" {} envOk).2.2.2
    (textResponse "No projects found.") (by rfl)

/-- C3: for every error value, `formatErrorResponse` produces exactly the
response `\x7bcontent: [\x7btype: "text", text: "Error: " ++ message ++ " - " ++ d\x7d],
isError: true\x7d` where `d` is the nested `cause.description` when present and
non-empty and `"No additional details"` otherwise. -/
theorem formatErrorResponse_spec (e : JsError) :
    formatErrorResponse e =
      { content := [{ type := "text",
                      text := "Error: " ++ e.message ++ " - " ++ claimErrorDetail e }],
        isError := some true } := by
  rcases e with ⟨m, c⟩
  unfold formatErrorResponse claimErrorDetail jsOrElseStr
  rcases c with _ | ⟨d⟩
  · rfl
  · rcases d with _ | s
    · rfl
    · by_cases hs : s = "" <;> simp [hs]

/-- C8: for every operation name outside the registered tool set, dispatch
returns the translated `Unknown tool: <name>` failure and attempts no
provider call (no handler runs). -/
theorem dispatchJS_unknown_tool (name : String) (args : Args) (env : Provider)
    (h : name ∉ toolNames) :
    dispatchJS name args env =
      (formatErrorResponse { message := "Unknown tool: " ++ name, cause := none }, []) := by
  simp only [toolNames, List.mem_cons, List.not_mem_nil, or_false, not_or] at h
  obtain ⟨h1, h2, h3, h4, h5, h6, h7, h8, h9, h10⟩ := h
  unfold dispatchJS handleToolJS
  simp [h1, h2, h3, h4, h5, h6, h7, h8, h9, h10]

/-- Witness for C8 at the concrete unknown name `not_a_tool`. -/
theorem dispatchJS_unknown_tool_witness :
    dispatchJS "not_a_tool" {} envOk =
      (formatErrorResponse { message := "Unknown tool: " ++ "not_a_tool", cause := none },
        []) :=
  dispatchJS_unknown_tool "not_a_tool" {} envOk (by decide)

/-- C4: for a discussion set with `N` unresolved `DiscussionNote` notes, `M`
unresolved `DiffNote` notes and `K` resolved notes across the flattened
discussions, the non-verbose comment partition has exactly `N` entries in the
discussion-notes list and `M` in the diff-notes list; every entry of either
list originates from a note with `resolved === false` of the matching type, so
none of the `K` resolved notes contributes an entry. -/
theorem getMergeRequestComments_partition (discussions : List Discussion) (N M K : Nat)
    (hN : N = ((discussions.flatMap Discussion.notes).filter
      (fun n => n.resolved == some false && n.type == some "DiscussionNote")).length)
    (hM : M = ((discussions.flatMap Discussion.notes).filter
      (fun n => n.resolved == some false && n.type == some "DiffNote")).length)
    (_hK : K = ((discussions.flatMap Discussion.notes).filter
      (fun n => n.resolved == some true)).length) :
    (disscussionNotesOf discussions).length = N ∧
    (diffNotesOf discussions).length = M ∧
    (∀ e ∈ disscussionNotesOf discussions, ∃ n ∈ discussions.flatMap Discussion.notes,
      n.resolved = some false ∧ n.type = some "DiscussionNote" ∧
        e = filterDiscussionNote n) ∧
    (∀ e ∈ diffNotesOf discussions, ∃ n ∈ discussions.flatMap Discussion.notes,
      n.resolved = some false ∧ n.type = some "DiffNote" ∧ e = filterDiffNote n) := by
  refine ⟨?_, ?_, ?_, ?_⟩
  · subst hN
    simp only [disscussionNotesOf, unresolvedNotesOf, List.length_map,
      List.filter_filter]
    exact congrArg List.length (List.filter_congr (fun a _ => Bool.and_comm _ _))
  · subst hM
    simp only [diffNotesOf, unresolvedNotesOf, List.length_map, List.filter_filter]
    exact congrArg List.length (List.filter_congr (fun a _ => Bool.and_comm _ _))
  · intro e he
    simp only [disscussionNotesOf, unresolvedNotesOf, List.mem_map,
      List.mem_filter] at he
    obtain ⟨n, ⟨⟨hn, hres⟩, hty⟩, rfl⟩ := he
    exact ⟨n, hn, by simpa using hres, by simpa using hty, rfl⟩
  · intro e he
    simp only [diffNotesOf, unresolvedNotesOf, List.mem_map, List.mem_filter] at he
    obtain ⟨n, ⟨⟨hn, hres⟩, hty⟩, rfl⟩ := he
    exact ⟨n, hn, by simpa using hres, by simpa using hty, rfl⟩

/-- Witness for C4 at `discussions0`: N = 1, M = 1, K = 1; the partition has
one entry in each list. -/
theorem getMergeRequestComments_partition_witness :
    (disscussionNotesOf discussions0).length = 1 ∧
    (diffNotesOf discussions0).length = 1 := by
  have h := getMergeRequestComments_partition discussions0 1 1 1
    (by rfl) (by rfl) (by rfl)
  exact ⟨h.1, h.2.1⟩

/-- C5: the non-verbose output lists of the list-returning operations
(`get_projects`, `list_open_merge_requests`) are the element-wise projections
of the raw provider lists: same length, same order, the `i`-th element holding
exactly the projection field set with every value copied from the `i`-th raw
element. (`List.map` builds a new list, so the raw input is not mutated.) -/
theorem filtered_projection_pointwise (ps : List Project) (ms : List MergeRequest) :
    ((ps.map filterProject).length = ps.length ∧
      ∀ i : Nat, (ps.map filterProject)[i]? = (ps[i]?).map filterProject) ∧
    (∀ p : Project, filterProject p =
      { id := p.id, description := p.description, name := p.name, path := p.path,
        path_with_namespace := p.path_with_namespace, web_url := p.web_url,
        default_branch := p.default_branch }) ∧
    ((ms.map filterMergeRequest).length = ms.length ∧
      ∀ i : Nat, (ms.map filterMergeRequest)[i]? = (ms[i]?).map filterMergeRequest) ∧
    (∀ mr : MergeRequest, filterMergeRequest mr =
      { iid := mr.iid, project_id := mr.project_id, title := mr.title,
        description := mr.description, state := mr.state, web_url := mr.web_url }) := by
  refine ⟨⟨by simp, fun i => by simp⟩, fun p => rfl, ⟨by simp, fun i => by simp⟩,
    fun mr => rfl⟩

/-- C6: on an empty provider list, `getProjects` returns the literal sentence
`No projects found.` and `getMergeRequestDiff` returns `No diff data available
for this merge request.` — plain text, in both cases distinct from the JSON
serialization `[]` of an empty array. -/
theorem empty_collection_texts (args : Args) (env : Provider)
    (hp : env.projectsAll = Except.ok [])
    (hd : env.mergeRequestsAllDiffs = Except.ok []) :
    (getProjectsJS args env).1 = Except.ok (textResponse "No projects found.") ∧
    (getMergeRequestDiffJS args env).1 =
      Except.ok (textResponse "No diff data available for this merge request.") ∧
    "No projects found." ≠ "[]" ∧
    "No diff data available for this merge request." ≠ "[]" := by
  refine ⟨?_, ?_, by decide, by decide⟩
  · unfold getProjectsJS
    rw [hp]
    simp
  · unfold getMergeRequestDiffJS
    rw [hd]
    simp

/-- Witness for C6 against the all-empty environment `envOk`. -/
theorem empty_collection_texts_witness :
    (getProjectsJS {} envOk).1 = Except.ok (textResponse "No projects found.") :=
  (empty_collection_texts {} envOk rfl rfl).1

/-- C9: `list_open_merge_requests` in non-verbose mode serializes an empty
provider result as the JSON text `[]` — it has no empty-collection sentence,
unlike `get_projects` and `get_merge_request_diff`. -/
theorem listOpenMergeRequests_empty_json (args : Args) (env : Provider)
    (hm : env.mergeRequestsAll = Except.ok [])
    (hv : args.verbose.getD false = false) :
    (listOpenMergeRequestsJS args env).1 = Except.ok (textResponse "[]") := by
  unfold listOpenMergeRequestsJS
  rw [hm]
  simp [hv, jsonStringify]

/-- Witness for C9: empty merge-request list, default (non-verbose) mode. -/
theorem listOpenMergeRequests_empty_json_witness :
    (listOpenMergeRequestsJS {} envOk).1 = Except.ok (textResponse "[]") :=
  listOpenMergeRequests_empty_json {} envOk rfl rfl

/-- Counterexample to C1 as stated: in the JS variant, invoking the registered
operation `get_merge_request_details` with every argument absent does not
yield a missing-argument failure — the provider call is attempted (trace
nonempty) and the result is a success. -/
theorem getMergeRequestDetails_missing_arg_counterexample :
    (dispatchJS "get_merge_request_details" {} envOk).2 =
      [ProviderCall.mergeRequestsShow none none] ∧
    (dispatchJS "get_merge_request_details" {} envOk).1.isError = none := by
  constructor <;> rfl

/-- C1 amended: in the TS variant, every registered operation with required
arguments validates them before any provider call — with a required argument
absent, the wrapped handler returns the `... are required` failure response
naming the field(s) and the provider trace is empty. (The JS variant performs
no such validation; see the counterexample.) -/
theorem tsHandlers_validate_before_provider (args : Args) (env : Provider) :
    (args.project_id = none →
      runToolTS listOpenMergeRequestsTS args env =
        (formatErrorResponse { message := "project_id is required", cause := none },
          [])) ∧
    ((args.project_id = none ∨ args.merge_request_iid = none) →
      runToolTS getMergeRequestDetailsTS args env =
        (formatErrorResponse
          { message := "project_id and merge_request_iid are required", cause := none },
          [])) ∧
    ((args.project_id = none ∨ args.merge_request_iid = none) →
      runToolTS getMergeRequestCommentsTS args env =
        (formatErrorResponse
          { message := "project_id and merge_request_iid are required", cause := none },
          [])) ∧
    ((args.project_id = none ∨ args.merge_request_iid = none ∨ args.comment = none) →
      runToolTS addMergeRequestCommentTS args env =
        (formatErrorResponse
          { message := "project_id, merge_request_iid, and comment are required",
            cause := none }, [])) ∧
    ((args.project_id = none ∨ args.merge_request_iid = none ∨ args.comment = none ∨
        args.base_sha = none ∨ args.start_sha = none ∨ args.head_sha = none ∨
        args.file_path = none ∨ args.line_number = none) →
      runToolTS addMergeRequestDiffCommentTS args env =
        (formatErrorResponse
          { message := "project_id, merge_request_iid, comment, base_sha, start_sha, head_sha, file_path, and line_number are required",
            cause := none }, [])) ∧
    ((args.project_id = none ∨ args.merge_request_iid = none) →
      runToolTS getMergeRequestDiffTS args env =
        (formatErrorResponse
          { message := "project_id and merge_request_iid are required", cause := none },
          [])) ∧
    ((args.project_id = none ∨ args.issue_iid = none) →
      runToolTS getIssueDetailsTS args env =
        (formatErrorResponse
          { message := "project_id and issue_iid are required", cause := none }, [])) ∧
    ((args.project_id = none ∨ args.merge_request_iid = none ∨
        args.description = none) →
      runToolTS setMergeRequestDescriptionTS args env =
        (formatErrorResponse
          { message := "project_id, merge_request_iid, and description are required",
            cause := none }, [])) ∧
    ((args.project_id = none ∨ args.merge_request_iid = none ∨ args.title = none) →
      runToolTS setMergeRequestTitleTS args env =
        (formatErrorResponse
          { message := "project_id, merge_request_iid, and title are required",
            cause := none }, [])) := by
  refine ⟨?_, ?_, ?_, ?_, ?_, ?_, ?_, ?_, ?_⟩
  · intro h
    unfold runToolTS listOpenMergeRequestsTS
    simp [h, falsyNum]
  · intro h
    unfold runToolTS getMergeRequestDetailsTS
    rcases h with h | h <;> simp [h, falsyNum]
  · intro h
    unfold runToolTS getMergeRequestCommentsTS
    rcases h with h | h <;> simp [h, falsyNum]
  · intro h
    unfold runToolTS addMergeRequestCommentTS
    rcases h with h | h | h <;> simp [h, falsyNum, falsyStr]
  · intro h
    unfold runToolTS addMergeRequestDiffCommentTS
    rcases h with h | h | h | h | h | h | h | h <;> simp [h, falsyNum, falsyStr]
  · intro h
    unfold runToolTS getMergeRequestDiffTS
    rcases h with h | h <;> simp [h, falsyNum]
  · intro h
    unfold runToolTS getIssueDetailsTS
    rcases h with h | h <;> simp [h, falsyNum]
  · intro h
    unfold runToolTS setMergeRequestDescriptionTS
    rcases h with h | h | h <;> simp [h, falsyNum, falsyStr]
  · intro h
    unfold runToolTS setMergeRequestTitleTS
    rcases h with h | h | h <;> simp [h, falsyNum, falsyStr]

/-- Witness for the amended C1: `get_merge_request_details` (TS) with both
required arguments absent. -/
theorem tsHandlers_validate_before_provider_witness :
    runToolTS getMergeRequestDetailsTS {} envOk =
      (formatErrorResponse
        { message := "project_id and merge_request_iid are required", cause := none },
        []) :=
  (tsHandlers_validate_before_provider {} envOk).2.1 (Or.inl rfl)

/-- Counterexample to C7's validation clause: the JS variant's
`addMergeRequestDiffComment` with the required `comment` argument absent
still attempts the provider create call (the trace is nonempty), so not every
missing argument fails before the provider call. -/
theorem addMergeRequestDiffComment_missing_counterexample :
    (addMergeRequestDiffCommentJS argsDiffNoComment envOk).2 ≠ [] := by decide

/-- C7 amended: the position structure passed to the create-discussion call
carries the three SHA values unchanged, the same `file_path` value in both
the old-path and new-path fields, position type `"text"`, and the
`line_number` value unchanged in the new-line field. In the TS variant all
eight arguments are validated before the provider call (any absent one fails
with an empty trace); the JS variant performs no validation and always
attempts the call, and on non-falsy arguments the TS variant behaves exactly
like the JS variant. -/
theorem addMergeRequestDiffComment_position (args : Args) (env : Provider) :
    ((addMergeRequestDiffCommentJS args env).2 =
      [ProviderCall.discussionsCreate args.project_id args.merge_request_iid
        args.comment
        (some { base_sha := args.base_sha, start_sha := args.start_sha,
                head_sha := args.head_sha, old_path := args.file_path,
                new_path := args.file_path, position_type := "text",
                new_line := args.line_number })]) ∧
    ((args.project_id = none ∨ args.merge_request_iid = none ∨ args.comment = none ∨
        args.base_sha = none ∨ args.start_sha = none ∨ args.head_sha = none ∨
        args.file_path = none ∨ args.line_number = none) →
      addMergeRequestDiffCommentTS args env =
        (Except.error
          { message := "project_id, merge_request_iid, comment, base_sha, start_sha, head_sha, file_path, and line_number are required",
            cause := none }, [])) ∧
    ((falsyNum args.project_id || falsyNum args.merge_request_iid ||
        falsyStr args.comment || falsyStr args.base_sha || falsyStr args.start_sha ||
        falsyStr args.head_sha || falsyStr args.file_path ||
        falsyStr args.line_number) = false →
      addMergeRequestDiffCommentTS args env = addMergeRequestDiffCommentJS args env) := by
  refine ⟨?_, ?_, ?_⟩
  · unfold addMergeRequestDiffCommentJS
    rcases env.discussionsCreate with e | d <;> rfl
  · intro h
    unfold addMergeRequestDiffCommentTS
    rcases h with h | h | h | h | h | h | h | h <;> simp [h, falsyNum, falsyStr]
  · intro h
    unfold addMergeRequestDiffCommentTS
    rw [h]
    simp

/-- Witness for the amended C7 at the spec's example values: the position
carries the SHAs unchanged, the path twice, type text and the line number,
and the TS variant coincides with the JS variant there. -/
theorem addMergeRequestDiffComment_position_witness :
    (addMergeRequestDiffCommentJS argsDiffFull envOk).2 =
      [ProviderCall.discussionsCreate (some 1) (some 2) (some "note")
        (some { base_sha := some "a1", start_sha := some "b2",
                head_sha := some "c3", old_path := some "src/main.ts",
                new_path := some "src/main.ts", position_type := "text",
                new_line := some "42" })] ∧
    addMergeRequestDiffCommentTS argsDiffFull envOk =
      addMergeRequestDiffCommentJS argsDiffFull envOk := by
  have h := addMergeRequestDiffComment_position argsDiffFull envOk
  exact ⟨h.1, h.2.2 (by decide)⟩

/-- C10: in the TS variant, required-argument checks use JS falsiness, so a
present-but-falsy argument — `project_id = 0`, `merge_request_iid = 0`, or an
empty `comment`/`description`/`title` string — is rejected exactly like a
missing one: the handler raises the `... are required` error and no provider
call is made. -/
theorem tsHandlers_falsy_args_rejected (args : Args) (env : Provider) :
    (args.project_id = some 0 →
      getMergeRequestDetailsTS args env =
        (Except.error
          { message := "project_id and merge_request_iid are required", cause := none },
          [])) ∧
    (args.merge_request_iid = some 0 →
      getMergeRequestDetailsTS args env =
        (Except.error
          { message := "project_id and merge_request_iid are required", cause := none },
          [])) ∧
    (args.comment = some "" →
      addMergeRequestCommentTS args env =
        (Except.error
          { message := "project_id, merge_request_iid, and comment are required",
            cause := none }, [])) ∧
    (args.description = some "" →
      setMergeRequestDescriptionTS args env =
        (Except.error
          { message := "project_id, merge_request_iid, and description are required",
            cause := none }, [])) ∧
    (args.title = some "" →
      setMergeRequestTitleTS args env =
        (Except.error
          { message := "project_id, merge_request_iid, and title are required",
            cause := none }, [])) := by
  refine ⟨?_, ?_, ?_, ?_, ?_⟩
  · intro h
    unfold getMergeRequestDetailsTS
    simp [h, falsyNum]
  · intro h
    unfold getMergeRequestDetailsTS
    simp [h, falsyNum]
  · intro h
    unfold addMergeRequestCommentTS
    simp [h, falsyNum, falsyStr]
  · intro h
    unfold setMergeRequestDescriptionTS
    simp [h, falsyNum, falsyStr]
  · intro h
    unfold setMergeRequestTitleTS
    simp [h, falsyNum, falsyStr]

/-- Witness for C10: `get_merge_request_details` (TS) with `project_id = 0`
present but falsy. -/
theorem tsHandlers_falsy_args_rejected_witness :
    getMergeRequestDetailsTS { project_id := some 0, merge_request_iid := some 5 }
        envOk =
      (Except.error
        { message := "project_id and merge_request_iid are required", cause := none },
        []) :=
  (tsHandlers_falsy_args_rejected
    { project_id := some 0, merge_request_iid := some 5 } envOk).1 rfl

end GitlabMrMcp
